import Mathlib

/-!
Verification of the asset-ingestion / I3S-path-resolution subsystem of the
MyEarth orchestrator (`src/main.py`).

The filesystem trees produced by SLPK extraction are modelled shallowly: a
tree is the list of its regular files, each file given by its path relative
to the extraction root as a list of components.  A directory exists exactly
when it is a strict prefix of some file path (plus the root itself), which
matches what `Path.exists` / `Path.is_dir` observe on a tree laid down by
`zipfile.extractall`.
-/

/-- A path relative to the extraction root, as a list of components. -/
abbrev FsPath := List String

/-- An extracted tree: the regular files it contains. -/
abbrev FsTree := List FsPath

/-- `Path.is_file`: the path is one of the tree's regular files. -/
def isFile (t : FsTree) (p : FsPath) : Bool := t.contains p

/-- The strict ancestor directories of a file path (`[a,b,c]` has `[a]`, `[a,b]`). -/
def dirsAbove : FsPath → List FsPath
  | [] => []
  | [_] => []
  | a :: rest => [a] :: (dirsAbove rest).map (a :: ·)

/-- `Path.is_dir`: the root, or a strict ancestor of some file. -/
def isDir (t : FsTree) (p : FsPath) : Bool :=
  p.isEmpty || t.any (fun f => p.isPrefixOf f && p != f)

/-- `Path.exists`: a file or a directory. -/
def pathExists (t : FsTree) (p : FsPath) : Bool := isFile t p || isDir t p

/-- Python `sep.join(parts)`. -/
def joinSep (sep : String) : List String → String
  | [] => ""
  | [x] => x
  | x :: y :: xs => x ++ sep ++ joinSep sep (y :: xs)

/-- Split a character list on `/` (the groups between separators). -/
def splitCharList : List Char → List (List Char)
  | [] => [[]]
  | c :: rest =>
    match splitCharList rest with
    | [] => [[c]]
    | g :: gs => if c = '/' then [] :: g :: gs else (c :: g) :: gs

/-- Python `s.split("/")` / `str.splitOn "/"`, structurally recursive. -/
def splitSlash (s : String) : List String :=
  (splitCharList s.toList).map (fun l => (⟨l⟩ : String))

/-- Python `s.startswith(pre)`, structurally recursive. -/
def strStartsWith (s pre : String) : Bool := pre.toList.isPrefixOf s.toList

/-- Python `s.endswith(suf)`, structurally recursive. -/
def strEndsWith (s suf : String) : Bool := suf.toList.isSuffixOf s.toList

/-- Drop the last `n` characters of a string, structurally recursive. -/
def dropRightStr (s : String) (n : Nat) : String :=
  ⟨(s.toList.reverse.drop n).reverse⟩

/-- Parse a slash-separated relative path string into components
(`pathlib.Path` on the joined string). -/
def strPath (s : String) : FsPath := splitSlash s

/-- Existence test on a slash-separated relative path string. -/
def sExists (t : FsTree) (s : String) : Bool := pathExists t (strPath s)

/-- File test on a slash-separated relative path string. -/
def sIsFile (t : FsTree) (s : String) : Bool := isFile t (strPath s)

/-- Directory test on a slash-separated relative path string. -/
def sIsDir (t : FsTree) (s : String) : Bool := isDir t (strPath s)

/-- Everything `extract_dir.rglob("*")` yields: all files and directories
below the root (root excluded), possibly with duplicates removed. -/
def allEntries (t : FsTree) : List FsPath := (t ++ (t.map dirsAbove).flatten).dedup

/-- All directories strictly below the root (`rglob("*")` filtered by `is_dir`). -/
def allDirs (t : FsTree) : List FsPath := ((t.map dirsAbove).flatten).dedup

/-- Entries (files or directories) whose final component equals `name`,
as found by `extract_dir.glob("**/" + name)`. -/
def entriesNamed (t : FsTree) (name : String) : List FsPath :=
  (allEntries t).filter (fun p => p.getLast? == some name)

/-- Python `str.count("/")`. -/
def countSlash (s : String) : Nat := (s.toList.filter (fun c => c == '/')).length

/-- Python `path.lstrip("/").rstrip("/")`: drop all leading and trailing slashes. -/
def stripSlashes (s : String) : String :=
  ⟨((s.toList.dropWhile (fun c => c == '/')).reverse.dropWhile (fun c => c == '/')).reverse⟩

/-- Python `str.isdigit` restricted to ASCII: nonempty and all digits. -/
def isDigits (s : String) : Bool := !s.toList.isEmpty && s.toList.all Char.isDigit

/-!  The I3S path resolver of `serve_i3s` (src/main.py lines 634-829). -/

/-- Outcome of candidate-path resolution: the resolved relative path, if any,
and every candidate path attempted, in order. -/
structure Resolution where
  resolved : Option String
  attempted : List String
deriving Repr, DecidableEq

/-- Root-metadata candidates tried for the empty request path
(src/main.py lines 671-676). -/
def rootCandidates : List String :=
  ["service.json", "SceneServer/service.json",
   "SceneServer/3dSceneLayer.json", "3dSceneLayer.json"]

/-- Layer-metadata candidates for a `layers/N` request
(src/main.py lines 692-697). -/
def layerCandidates (p : String) : List String :=
  [p ++ "/layer.json", p ++ "/3dSceneLayer.json",
   "SceneServer/" ++ p ++ "/layer.json", "SceneServer/" ++ p ++ "/3dSceneLayer.json"]

/-- The alternate path for `layers/<digits>/...` requests: the same path with
the `layers/<id>/` piece stripped (src/main.py lines 713-718). -/
def altPath (p : String) : Option String :=
  if strStartsWith p "layers/" then
    let parts := splitSlash p
    if parts.length ≥ 3 && isDigits (parts.getD 1 "") then
      some (joinSep "/" (parts.drop 2))
    else none
  else none

/-- The ordered candidate list the direct-file branch builds before probing
the tree (src/main.py lines 720-748); it depends only on the request path. -/
def directCandidates (p : String) : List String :=
  let alt := altPath p
  [p, "SceneServer/" ++ p]
    ++ (match alt with
        | some a => [a, "SceneServer/" ++ a]
        | none => [])
    ++ [p ++ ".json", "SceneServer/" ++ p ++ ".json"]
    ++ (match alt with
        | some a => [a ++ ".json", "SceneServer/" ++ a ++ ".json"]
        | none => [])
    ++ [p ++ "/index.json", "SceneServer/" ++ p ++ "/index.json",
        p ++ "/3dNodeIndexDocument.json", "SceneServer/" ++ p ++ "/3dNodeIndexDocument.json"]
    ++ (match alt with
        | some a => [a ++ "/index.json", "SceneServer/" ++ a ++ "/index.json",
                     a ++ "/3dNodeIndexDocument.json", "SceneServer/" ++ a ++ "/3dNodeIndexDocument.json"]
        | none => [])

/-- The root/layer branches' loop: record each candidate, stop at the first
that exists (file or directory) (src/main.py lines 678-683 and 699-704). -/
def existsLoop (t : FsTree) : List String → List String → Resolution
  | [], att => ⟨none, att⟩
  | c :: rest, att =>
    if sExists t c then ⟨some c, att ++ [c]⟩ else existsLoop t rest (att ++ [c])

/-- The direct branch's loop: stop at the first candidate that is a file; if a
candidate is a directory, probe `index.json` then `3dNodeIndexDocument.json`
inside it, recording those probes too (src/main.py lines 750-766). -/
def directLoop (t : FsTree) : List String → List String → Resolution
  | [], att => ⟨none, att⟩
  | c :: rest, att =>
    let att1 := att ++ [c]
    if sIsFile t c then ⟨some c, att1⟩
    else if sIsDir t c then
      let e1 := c ++ "/index.json"
      let att2 := att1 ++ [e1]
      if sIsFile t e1 then ⟨some e1, att2⟩
      else
        let e2 := c ++ "/3dNodeIndexDocument.json"
        let att3 := att2 ++ [e2]
        if sIsFile t e2 then ⟨some e2, att3⟩
        else directLoop t rest att3
    else directLoop t rest att1

/-- Candidate resolution before the gzip fallback (src/main.py lines 654-766). -/
def resolveMain (t : FsTree) (rawPath : String) : Resolution :=
  let path := stripSlashes rawPath
  if path = "" then existsLoop t rootCandidates []
  else if strStartsWith path "layers/" && countSlash path == 1 then
    existsLoop t (layerCandidates path) []
  else directLoop t (directCandidates path) []

/-- Full resolution including the gzip fallback: if nothing matched, retry
every attempted path with `.gz` appended (src/main.py lines 771-777). -/
def resolveWithGz (t : FsTree) (rawPath : String) : Resolution :=
  let r := resolveMain t rawPath
  match r.resolved with
  | some _ => r
  | none =>
    match r.attempted.find? (fun a => sExists t (a ++ ".gz")) with
    | some a => { r with resolved := some (a ++ ".gz") }
    | none => r

/-- HTTP response of the I3S shim.  `ok` carries the resolved relative path,
the content type, and whether the bytes are served through gzip
decompression; `notFound` is the 404 diagnostic body. -/
inductive I3sResponse where
  | ok (relPath : String) (contentType : String) (decompressed : Bool)
  | notFound (error : String) (requested : String) (attemptedPaths : List String)
deriving Repr, DecidableEq

/-- HTTP status of an I3S shim response. -/
def I3sResponse.status : I3sResponse → Nat
  | .ok _ _ _ => 200
  | .notFound _ _ _ => 404

/-- Python stdlib `mimetypes.guess_type`, modelled for the suffixes that occur
in I3S trees; unrecognized names map to `none` exactly as the stdlib does. -/
def guessType (name : String) : Option String :=
  if strEndsWith name ".json" then some "application/json"
  else if strEndsWith name ".png" then some "image/png"
  else if strEndsWith name ".jpg" then some "image/jpeg"
  else none

/-- Final component of a relative path string. -/
def baseName (s : String) : String := (splitSlash s).getLastD s

/-- The serving step of `serve_i3s` (src/main.py lines 782-825): a 404 body
listing the attempted paths when nothing resolved, transparent decompression
for `.gz` files with content type inferred from the name without `.gz`,
otherwise a plain file response. -/
def serve_i3s (t : FsTree) (folder : String) (rawPath : String) : I3sResponse :=
  let path := stripSlashes rawPath
  let r := resolveWithGz t rawPath
  match r.resolved with
  | none =>
    .notFound "File not found" ("/i3s/" ++ folder ++ "/" ++ path)
      (r.attempted.map (fun a => folder ++ "/" ++ a))
  | some f =>
    if strEndsWith f ".gz" then
      let origName := dropRightStr (baseName f) 3
      let ct := match guessType origName with
        | some c => c
        | none => if strEndsWith origName ".json" then "application/json"
                  else "application/octet-stream"
      .ok f ct true
    else
      let ct := match guessType (baseName f) with
        | some c => c
        | none => if strEndsWith (baseName f) ".json" then "application/json"
                  else "application/octet-stream"
      .ok f ct false

/-!  SLPK entry-point detection (`handle_slpk`, src/main.py lines 1517-1598). -/

/-- Entries named `service.json` anywhere in the tree
(`extract_dir.glob("**/service.json")`, src/main.py line 1518). -/
def serviceJsonFiles (t : FsTree) : List FsPath := entriesNamed t "service.json"

/-- Directories named `layers` anywhere in the tree (src/main.py line 1519). -/
def layersFolders (t : FsTree) : List FsPath :=
  (allDirs t).filter (fun p => p.getLast? == some "layers")

/-- Entries named `3dSceneLayer.json` anywhere in the tree (src/main.py line 1520). -/
def sceneLayerFiles (t : FsTree) : List FsPath := entriesNamed t "3dSceneLayer.json"

/-- Entries named `layer.json` anywhere in the tree (src/main.py line 1521). -/
def layerJsonFiles (t : FsTree) : List FsPath := entriesNamed t "layer.json"

/-- Strategy 0: `3dSceneLayer.json` at the extraction root (lines 1543-1547). -/
def strategy0 (t : FsTree) : Bool := pathExists t ["3dSceneLayer.json"]

/-- Strategy 1: a `SceneServer` entry at the root or anywhere below it
(lines 1549-1561). -/
def strategy1 (t : FsTree) : Bool :=
  pathExists t ["SceneServer"] || !(entriesNamed t "SceneServer").isEmpty

/-- Strategy 2: some `service.json` whose parent directory also contains a
`layers` entry (lines 1563-1571). -/
def strategy2 (t : FsTree) : Bool :=
  (serviceJsonFiles t).any (fun f => pathExists t (f.dropLast ++ ["layers"]))

/-- Strategy 3: some `layers` directory with a subdirectory `0` holding
`3dSceneLayer.json` or `layer.json` (lines 1573-1584). -/
def strategy3 (t : FsTree) : Bool :=
  (layersFolders t).any (fun d =>
    isDir t (d ++ ["0"]) &&
      (pathExists t (d ++ ["0", "3dSceneLayer.json"]) ||
       pathExists t (d ++ ["0", "layer.json"])))

/-- Strategy 4: any `3dSceneLayer.json` anywhere (lines 1586-1591). -/
def strategy4 (t : FsTree) : Bool := !(sceneLayerFiles t).isEmpty

/-- Strategy 5: any `layer.json` anywhere (lines 1593-1598). -/
def strategy5 (t : FsTree) : Bool := !(layerJsonFiles t).isEmpty

/-- The detection strategies in the order the code tries them. -/
def strategyList : List (FsTree → Bool) :=
  [strategy0, strategy1, strategy2, strategy3, strategy4, strategy5]

/-- Strategy predicate at a given index (false beyond the list). -/
def strategyAt : Nat → FsTree → Bool
  | 0 => strategy0
  | 1 => strategy1
  | 2 => strategy2
  | 3 => strategy3
  | 4 => strategy4
  | 5 => strategy5
  | _ => fun _ => false

/-- The chained `if not i3s_url` detection of `handle_slpk`
(src/main.py lines 1540-1598): index of the strategy that recognized the
tree, or `none`. -/
def detectEntryPoint (t : FsTree) : Option Nat :=
  if strategy0 t then some 0
  else if strategy1 t then some 1
  else if strategy2 t then some 2
  else if strategy3 t then some 3
  else if strategy4 t then some 4
  else if strategy5 t then some 5
  else none

/-!  Job tracking (src/main.py lines 88-124 and 993-1009).  The in-memory
`jobs` dict is modelled as an association list keyed by job id; the wall-clock
bookkeeping fields `created_at` / `updated_at` are elided. -/

/-- `JobStatus` enum (src/main.py lines 88-92). -/
inductive JobStatus where
  | queued | processing | done | error
deriving Repr, DecidableEq

/-- `JobStage` enum (src/main.py lines 94-99). -/
inductive JobStage where
  | upload_saved | extracting_slpk | converting_pointcloud | generating_tileset | done
deriving Repr, DecidableEq

/-- The `result` payload stored on a terminal job
(src/main.py lines 1032-1040 and 1052-1061). -/
structure ResultPayload where
  success : Bool
  filename : String
  url : String
  size : Nat
  original_format : String
  processing_type : String
  message : String
  cesium_ion_asset_id : Option String := none
deriving Repr, DecidableEq

/-- One tracked job (the dict built by `create_job`, src/main.py lines 107-117). -/
structure Job where
  job_id : String
  filename : String
  status : JobStatus
  stage : JobStage
  progress : Nat
  message : Option String
  error : Option String
  result : Option ResultPayload
deriving Repr, DecidableEq

/-- The process-wide `jobs` mapping. -/
abbrev JobStore := List (String × Job)

/-- Dictionary lookup `jobs.get(job_id)`. -/
def lookupJob : JobStore → String → Option Job
  | [], _ => none
  | kv :: rest, id => if kv.1 = id then some kv.2 else lookupJob rest id

/-- The key set of the store. -/
def jobKeys (s : JobStore) : List String := s.map (fun kv => kv.1)

/-- `create_job` (src/main.py lines 104-118); the fresh uuid is a parameter. -/
def create_job (s : JobStore) (job_id filename : String) : JobStore :=
  (job_id,
    { job_id := job_id, filename := filename, status := .queued,
      stage := .upload_saved, progress := 0,
      message := some "Upload saved, starting processing...",
      error := none, result := none }) :: s

/-- The keyword arguments a call to `update_job` may carry. -/
structure JobUpdate where
  status : Option JobStatus := none
  stage : Option JobStage := none
  progress : Option Nat := none
  message : Option String := none
  error : Option String := none
  result : Option ResultPayload := none
deriving Repr, DecidableEq

/-- `dict.update(kwargs)`: overwrite exactly the supplied fields (a field of
`JobUpdate` being `some v` means the keyword was passed with value `v`). -/
def applyUpdate (j : Job) (u : JobUpdate) : Job :=
  { j with
    status := u.status.getD j.status, stage := u.stage.getD j.stage,
    progress := u.progress.getD j.progress,
    message := match u.message with | some m => some m | none => j.message,
    error := match u.error with | some e => some e | none => j.error,
    result := match u.result with | some r => some r | none => j.result }

/-- `update_job` (src/main.py lines 120-124): update the entry when the id is
present, otherwise do nothing. -/
def update_job (s : JobStore) (job_id : String) (u : JobUpdate) : JobStore :=
  if (lookupJob s job_id).isSome then
    s.map (fun kv => if kv.1 == job_id then (kv.1, applyUpdate kv.2 u) else kv)
  else s

/-- The snapshot `get_job_status` returns (src/main.py lines 1000-1009). -/
structure JobView where
  job_id : String
  filename : String
  status : JobStatus
  stage : JobStage
  progress : Nat
  message : Option String
  error : Option String
  result : Option ResultPayload
deriving Repr, DecidableEq

/-- `GET /api/jobs/{job_id}` (src/main.py lines 993-1009): 404 for an unknown
id, otherwise a read-only snapshot of the job.  The handler is a pure read:
it takes the store and returns a response without producing a new store. -/
def get_job_status (s : JobStore) (id : String) : Except Nat JobView :=
  match lookupJob s id with
  | none => .error 404
  | some j =>
    .ok { job_id := j.job_id, filename := j.filename, status := j.status,
          stage := j.stage, progress := j.progress, message := j.message,
          error := j.error, result := j.result }

/-!  Point-cloud conversion (src/main.py lines 1257-1334 and 1981-2083). -/

/-- An HTTP error raised by a handler (`HTTPException`). -/
structure HttpError where
  status : Nat
  detail : String
deriving Repr, DecidableEq

/-- What happened when `convert_point_cloud_to_3dtiles` invoked the external
`py3dtiles` binary. -/
inductive ToolRun where
  /-- The subprocess finished with this return code; `tilesetExists` records
  whether `tileset.json` was present in the output directory afterwards,
  `tileCount` the number of `*.pnts` tiles and `totalSize` the output bytes. -/
  | ran (returncode : Int) (tilesetExists : Bool) (tileCount : Nat) (totalSize : Nat)
  /-- `FileNotFoundError`: the binary is not installed (or timeout/another
  exception while invoking it, caught by the same fallthrough). -/
  | notInstalled
  /-- An exception escaped to the outer handler of the converter. -/
  | raised (msg : String)
deriving Repr, DecidableEq

/-- The dict returned by `convert_point_cloud_to_3dtiles`. -/
structure ConvResult where
  success : Bool
  tileset_url : Option String := none
  tileset_name : Option String := none
  size : Option Nat := none
  tile_count : Option Nat := none
  error : Option String := none
deriving Repr, DecidableEq

/-- `convert_point_cloud_to_3dtiles` (src/main.py lines 1981-2083): success
only when the converter exited 0 and `tileset.json` exists, in which case the
url is `/uploads/<output_dirname>/tileset.json`; every other outcome is a
`success: False` dict. -/
def convert_point_cloud_to_3dtiles (output_dirname : String) (run : ToolRun) :
    ConvResult :=
  match run with
  | .ran rc tilesetExists tileCount totalSize =>
    if rc == 0 && tilesetExists then
      { success := true,
        tileset_url := some ("/uploads/" ++ output_dirname ++ "/tileset.json"),
        tileset_name := some output_dirname,
        size := some totalSize, tile_count := some tileCount }
    else
      { success := false,
        error := some "py3dtiles not installed or failed. Install with: pip install py3dtiles[las]" }
  | .notInstalled =>
    { success := false,
      error := some "py3dtiles not installed or failed. Install with: pip install py3dtiles[las]" }
  | .raised msg => { success := false, error := some msg }

/-- The result dict a format handler returns to `process_3d_model`. -/
structure ProcessingResult where
  filename : String
  url : String
  size : Nat
  processing_type : String
  message : String
deriving Repr, DecidableEq

/-- `handle_point_cloud` (src/main.py lines 1257-1334): on conversion success,
a `point_cloud_3dtiles` result rooted at the converter's tileset url; on any
failure, `HTTPException(400)` — the raw-fallback block after the `raise` at
line 1318 is unreachable. -/
def handle_point_cloud (conv : ConvResult) : Except HttpError ProcessingResult :=
  if conv.success then
    .ok { filename := conv.tileset_name.getD "",
          url := conv.tileset_url.getD "",
          size := conv.size.getD 0,
          processing_type := "point_cloud_3dtiles",
          message := "Point cloud converted to 3D Tiles (" ++
            toString (conv.tile_count.getD 0) ++ " tiles)" }
  else
    .error { status := 400,
             detail := "Point clouds must be converted to 3D Tiles to render in Cesium. Conversion failed: " ++
               conv.error.getD "Conversion tool not available" ++
               ". Please upload LAS/LAZ with py3dtiles installed, or upload pre-generated tileset.json." }

/-!  Upload streaming with progressive size enforcement
(src/main.py lines 1102-1137). -/

/-- `MAX_FILE_SIZE = 5 * 1024 * 1024 * 1024` (src/main.py line 1103). -/
def MAX_FILE_SIZE : Nat := 5 * 1024 * 1024 * 1024

/-- The streaming save loop of `upload_model` (src/main.py lines 1119-1137).
Chunks are given by their byte counts; a zero chunk is end of stream.  The
returned pair is the request outcome (bytes written, or the 400 error) and
the file left on disk (`none` after the partial file is deleted). -/
def saveLoop : List Nat → Nat → Except HttpError Nat × Option Nat
  | [], written => (.ok written, some written)
  | c :: rest, written =>
    if c = 0 then (.ok written, some written)
    else if written + c > MAX_FILE_SIZE then
      (.error { status := 400, detail := "File too large. Maximum size: 5GB" }, none)
    else saveLoop rest (written + c)

/-- The on-disk byte counts observed after each chunk write, in order. -/
def diskTrace : List Nat → Nat → List Nat
  | [], _ => []
  | c :: rest, written =>
    if c = 0 then []
    else if written + c > MAX_FILE_SIZE then []
    else (written + c) :: diskTrace rest (written + c)

/-- The size-relevant part of `upload_model` (src/main.py lines 1102-1137):
the declared-size pre-check, then the streaming save loop. -/
def upload_model_stream (declaredSize : Option Nat) (chunks : List Nat) :
    Except HttpError Nat × Option Nat :=
  match declaredSize with
  | some n =>
    if n > MAX_FILE_SIZE then
      (.error { status := 400, detail := "File too large. Maximum size: 5GB" }, none)
    else saveLoop chunks 0
  | none => saveLoop chunks 0

/-!  SLPK import pipeline (`handle_slpk`, src/main.py lines 1442-1689) and the
background orchestration task (`process_model_background`, lines 1011-1081). -/

/-- Insert into a sorted list of strings (code-point order, as Python). -/
def insertSorted (x : String) : List String → List String
  | [] => [x]
  | y :: ys => if x ≤ y then x :: y :: ys else y :: insertSorted x ys

/-- Python `sorted` on strings. -/
def sortStrings (l : List String) : List String := l.foldr insertSorted []

/-- Render a relative path as Python `str(p.relative_to(extract_dir))`. -/
def relString (p : FsPath) : String := joinSep "/" p

/-- The in-place `*.json.gz` normalization after extraction (src/main.py
lines 1465-1476): each such file is replaced by its name minus `.gz`
(decompression failures, which are skipped, are not modelled). -/
def gzStripFile (p : FsPath) : FsPath :=
  match p.getLast? with
  | some n => if strEndsWith n ".json.gz" then p.dropLast ++ [dropRightStr n 3] else p
  | none => p

/-- The extracted tree after the gzip normalization pass. -/
def decompressTree (t : FsTree) : FsTree := t.map gzStripFile

/-- `len(all_dirs)` of the deep scan (src/main.py line 1493). -/
def dirCount (t : FsTree) : Nat := (allDirs t).length

/-- `len(all_files)` of the deep scan (src/main.py line 1494). -/
def fileCount (t : FsTree) : Nat := t.dedup.length

/-- `json_files`: sorted relative paths of entries matching `rglob("*.json")`
(src/main.py line 1495). -/
def jsonList (t : FsTree) : List String :=
  sortStrings (((allEntries t).filter
    (fun p => strEndsWith (p.getLastD "") ".json")).map relString)

/-- `len(json_files)`. -/
def jsonCount (t : FsTree) : Nat := (jsonList t).length

/-- `top_level`: sorted names of the extraction root's direct children
(src/main.py line 1618). -/
def topLevel (t : FsTree) : List String :=
  sortStrings ((t.filterMap List.head?).dedup)

/-- The `error_parts` list built for an unrecognized SLPK
(src/main.py lines 1622-1636). -/
def unrecognizedParts (t : FsTree) : List String :=
  let base := ["SLPK extracted but no I3S entry point found.",
    "Statistics: " ++ toString (dirCount t) ++ " dirs, " ++
      toString (fileCount t) ++ " files, " ++ toString (jsonCount t) ++ " JSONs.",
    "Top-level: " ++ joinSep ", " (topLevel t) ++ "."]
  let base := if !(jsonList t).isEmpty then
      base ++ ["JSON files: " ++ joinSep ", " ((jsonList t).take 30) ++ "."]
    else base
  let base := if (layersFolders t).isEmpty then
      base ++ ["No \x27layers/\x27 folders found (expected for valid I3S)."]
    else base
  if (serviceJsonFiles t).isEmpty && (sceneLayerFiles t).isEmpty &&
      (layerJsonFiles t).isEmpty then
    base ++ ["No I3S metadata files found (service.json, 3dSceneLayer.json, layer.json)."]
  else base

/-- `error_message = " ".join(error_parts)` (src/main.py line 1638). -/
def unrecognizedMessage (t : FsTree) : String := joinSep " " (unrecognizedParts t)

/-- What the archive-extraction step did: produced a tree of files, or raised
(corrupt archive). -/
inductive ExtractionOutcome where
  | ok (tree : FsTree)
  | raises (msg : String)
deriving Repr, DecidableEq

/-- Observable outcome of `handle_slpk`: the returned result dict, the job
store after its `update_job` calls, and whether the freshly created
extraction directory still exists when it returns. -/
structure SlpkStep where
  result : ProcessingResult
  store : JobStore
  extractDirRetained : Bool
deriving Repr, DecidableEq

/-- `sum(p.stat().st_size for p in extract_dir.rglob('*') if p.is_file())`
with `sz` giving each file's byte size. -/
def treeSize (sz : FsPath → Nat) (t : FsTree) : Nat := (t.dedup.map sz).sum

/-- `handle_slpk` (src/main.py lines 1442-1689).  `extractDirName` is the
fresh `slpk_<ts>_<stem>` directory name, `fallbackTs` the timestamp used for
the raw-fallback filename, `originalSize` the uploaded file's size and `sz`
the sizes of extracted files.  On an extraction exception the directory is
removed and the handler returns a `slpk_raw` result serving the original
file; otherwise entry-point detection decides between an `i3s` result and the
`slpk_extracted_unrecognized` diagnostic, and the tree is kept either way. -/
def handle_slpk (s0 : JobStore) (job_id : String) (extractDirName : String)
    (fallbackTs : Nat) (original_filename : String) (originalSize : Nat)
    (sz : FsPath → Nat) (outcome : ExtractionOutcome) : SlpkStep :=
  let s1 := update_job s0 job_id
    { progress := some 30, message := some "Extracting SLPK archive..." }
  match outcome with
  | .raises _ =>
    { result := { filename := "slpk_" ++ toString fallbackTs ++ "_" ++ original_filename,
                  url := "/uploads/" ++ ("slpk_" ++ toString fallbackTs ++ "_" ++ original_filename),
                  size := originalSize, processing_type := "slpk_raw",
                  message := "SLPK could not be extracted; serving raw file" },
      store := s1, extractDirRetained := false }
  | .ok raw =>
    let t := decompressTree raw
    let s2 := update_job s1 job_id
      { progress := some 60, message := some "Locating I3S layer entry point..." }
    match detectEntryPoint t with
    | none =>
      let s3 := update_job s2 job_id
        { progress := some 50, message := some "No I3S entrypoint found" }
      { result := { filename := original_filename, url := "/i3s/" ++ extractDirName,
                    size := treeSize sz t,
                    processing_type := "slpk_extracted_unrecognized",
                    message := unrecognizedMessage t },
        store := s3, extractDirRetained := true }
    | some _ =>
      let s3 := update_job s2 job_id
        { progress := some 90, message := some "I3S layer ready" }
      { result := { filename := original_filename, url := "/i3s/" ++ extractDirName,
                    size := treeSize sz t, processing_type := "i3s",
                    message := "SLPK extracted as I3S (load with Cesium.I3SDataProvider)" },
        store := s3, extractDirRetained := true }

/-- `process_model_background` (src/main.py lines 1011-1081) given the
outcome of `process_3d_model`: an escaped `HTTPException` marks the job
`error` (its Starlette rendering is `"<status>: <detail>"`); an
`slpk_extracted_unrecognized` result marks the job `error` with a
`success: False` payload; any other result marks it `done` with a
`success: True` payload. -/
def process_model_background (s0 : JobStore) (job_id : String) (file_ext : String)
    (outcome : Except HttpError ProcessingResult) : JobStore :=
  let s1 := update_job s0 job_id
    { status := some .processing, progress := some 0,
      message := some "Starting processing..." }
  match outcome with
  | .error e =>
    update_job s1 job_id
      { status := some .error, progress := some 0,
        error := some (toString e.status ++ ": " ++ e.detail),
        message := some ("Processing failed: " ++ (toString e.status ++ ": " ++ e.detail)) }
  | .ok pr =>
    if pr.processing_type = "slpk_extracted_unrecognized" then
      update_job s1 job_id
        { status := some .error, stage := some .done, progress := some 100,
          error := some pr.message,
          message := some "SLPK extracted but no I3S entrypoint found",
          result := some { success := false, filename := pr.filename, url := pr.url,
                           size := pr.size, original_format := file_ext,
                           processing_type := pr.processing_type,
                           message := pr.message } }
    else
      update_job s1 job_id
        { status := some .done, stage := some .done, progress := some 100,
          message := some "Processing complete",
          result := some { success := true, filename := pr.filename, url := pr.url,
                           size := pr.size, original_format := file_ext,
                           processing_type := pr.processing_type,
                           message := pr.message, cesium_ion_asset_id := none } }

/-!  Helper lemmas shared by the claim theorems. -/

/-- The existence loop resolves to the first candidate that exists. -/
theorem existsLoop_resolved (t : FsTree) (cands att : List String) :
    (existsLoop t cands att).resolved = cands.find? (fun c => sExists t c) := by
  induction cands generalizing att with
  | nil => rfl
  | cons c rest ih =>
    by_cases h : sExists t c
    · simp [existsLoop, h]
    · simp [existsLoop, h, ih]

/-- Lookup after the keyed map `update_job` performs. -/
theorem lookup_map_update (s : JobStore) (id : String) (u : JobUpdate) :
    lookupJob (s.map (fun kv => if kv.1 = id then (kv.1, applyUpdate kv.2 u) else kv)) id
      = (lookupJob s id).map (fun j => applyUpdate j u) := by
  induction s with
  | nil => rfl
  | cons kv rest ih =>
    by_cases hk : kv.1 = id
    · simp [lookupJob, hk]
    · simp [lookupJob, hk, ih]

/-- Updating a present job updates exactly that job. -/
theorem lookup_update_some (s : JobStore) (id : String) (u : JobUpdate) (j : Job)
    (h : lookupJob s id = some j) :
    lookupJob (update_job s id u) id = some (applyUpdate j u) := by
  unfold update_job
  simp [h, lookup_map_update]

/-- The keyed map of `update_job` leaves the key list unchanged. -/
theorem keys_map_update (s : JobStore) (id : String) (u : JobUpdate) :
    jobKeys (s.map (fun kv => if kv.1 = id then (kv.1, applyUpdate kv.2 u) else kv))
      = jobKeys s := by
  induction s with
  | nil => rfl
  | cons kv rest ih =>
    simp only [jobKeys, List.map_cons] at ih ⊢
    by_cases hk : kv.1 = id
    · simp [hk, ih]
    · simp [hk, ih]

/-- A three-part join decomposes into its head parts and a remainder. -/
theorem joinSep_head3 (a b c : String) (w : List String) :
    ∃ rest, joinSep " " (a :: b :: c :: w) = a ++ " " ++ b ++ " " ++ c ++ rest := by
  cases w with
  | nil => exact ⟨"", by simp [joinSep, String.append_assoc]⟩
  | cons x xs =>
    exact ⟨" " ++ joinSep " " (x :: xs), by simp [joinSep, String.append_assoc]⟩

/-- C1: for `.las`/`.laz`/`.ply` uploads, `handle_point_cloud` either raises a
terminal `HTTPException(400)` (conversion failed — no raw fallback), or
returns a `point_cloud_3dtiles` result whose URL is the converter's
`tileset.json`; a success result never points at the raw uploaded file. -/
theorem point_cloud_success_is_tileset (output_dirname : String) (run : ToolRun) :
    (∃ e, handle_point_cloud (convert_point_cloud_to_3dtiles output_dirname run) = .error e ∧
       e.status = 400) ∨
    (∃ r, handle_point_cloud (convert_point_cloud_to_3dtiles output_dirname run) = .ok r ∧
       r.processing_type = "point_cloud_3dtiles" ∧
       r.url = "/uploads/" ++ output_dirname ++ "/tileset.json" ∧
       ∃ p, r.url = p ++ "tileset.json") := by
  have hlit : ("/" : String) ++ "tileset.json" = "/tileset.json" := by decide
  have hsplit : ("/uploads/" ++ output_dirname ++ "/tileset.json" : String)
      = ("/uploads/" ++ output_dirname ++ "/") ++ "tileset.json" := by
    rw [String.append_assoc, String.append_assoc, hlit]
    exact (String.append_assoc _ _ _).symm
  cases run with
  | ran rc ts cnt sz =>
    by_cases h : (rc == 0 && ts) = true
    · right
      have hconv : convert_point_cloud_to_3dtiles output_dirname (.ran rc ts cnt sz)
          = { success := true,
              tileset_url := some ("/uploads/" ++ output_dirname ++ "/tileset.json"),
              tileset_name := some output_dirname,
              size := some sz, tile_count := some cnt } := by
        simp [convert_point_cloud_to_3dtiles, h]
      rw [hconv]
      exact ⟨_, rfl, rfl, rfl, ⟨"/uploads/" ++ output_dirname ++ "/", hsplit⟩⟩
    · left
      have hconv : convert_point_cloud_to_3dtiles output_dirname (.ran rc ts cnt sz)
          = { success := false,
              error := some "py3dtiles not installed or failed. Install with: pip install py3dtiles[las]" } := by
        simp only [convert_point_cloud_to_3dtiles, if_neg h]
      rw [hconv]
      exact ⟨_, rfl, rfl⟩
  | notInstalled =>
    left
    exact ⟨_, rfl, rfl⟩
  | raised msg =>
    left
    exact ⟨_, rfl, rfl⟩

/-- A concrete corrupt-archive upload: the store holds one job `"j"`, and
extraction of `pkg.slpk` raises inside `zipfile.ZipFile`. -/
def slpkRaisesDemo : SlpkStep :=
  handle_slpk (create_job [] "j" "pkg.slpk") "j" "slpk_5_pkg" 5 "pkg.slpk" 123
    (fun _ => 0) (.raises "File is not a zip file")

/-- C2 counterexample: on a corrupt SLPK archive the extraction directory is
indeed removed, but the failure is not surfaced as an error — `handle_slpk`
falls back to a `slpk_raw` result whose URL points at the raw file, and the
orchestration layer then records the job as `done` with a `success: True`
payload, contradicting the claim that no success result is produced. -/
theorem slpk_extraction_failure_counterexample :
    slpkRaisesDemo.result.processing_type = "slpk_raw" ∧
    slpkRaisesDemo.result.url = "/uploads/slpk_5_pkg.slpk" ∧
    slpkRaisesDemo.extractDirRetained = false ∧
    (lookupJob (process_model_background slpkRaisesDemo.store "j" ".slpk"
        (.ok slpkRaisesDemo.result)) "j").map Job.status = some .done ∧
    ((lookupJob (process_model_background slpkRaisesDemo.store "j" ".slpk"
        (.ok slpkRaisesDemo.result)) "j").bind Job.result).map ResultPayload.success
      = some true := by
  refine ⟨rfl, by decide, rfl, ?_, ?_⟩ <;> rfl

/-- C2 amended: for every SLPK upload whose archive extraction raises, the
freshly created extraction directory is removed, but no error is surfaced:
`handle_slpk` falls back to moving the original upload and returns a normal
result with `processing_type` `slpk_raw` whose URL points at the raw file. -/
theorem slpk_extraction_failure_raw_fallback (s0 : JobStore) (jid dirName orig : String)
    (ts osz : Nat) (sz : FsPath → Nat) (msg : String) :
    (handle_slpk s0 jid dirName ts orig osz sz (.raises msg)).extractDirRetained = false ∧
    (handle_slpk s0 jid dirName ts orig osz sz (.raises msg)).result.processing_type
      = "slpk_raw" ∧
    (handle_slpk s0 jid dirName ts orig osz sz (.raises msg)).result.filename
      = "slpk_" ++ toString ts ++ "_" ++ orig ∧
    (handle_slpk s0 jid dirName ts orig osz sz (.raises msg)).result.url
      = "/uploads/" ++ ("slpk_" ++ toString ts ++ "_" ++ orig) ∧
    (handle_slpk s0 jid dirName ts orig osz sz (.raises msg)).result.message
      = "SLPK could not be extracted; serving raw file" :=
  ⟨rfl, rfl, rfl, rfl, rfl⟩

/-- C10: the job-store contract — `update_job` on an unknown id is a silent
no-op and never adds a key, `create_job` initializes a job as `queued` /
`upload_saved` / progress 0, and the status-poll endpoint (a pure read)
returns 404 for unknown ids and an unmodified snapshot for known ones. -/
theorem job_store_contract :
    (∀ s id u, lookupJob s id = none → update_job s id u = s) ∧
    (∀ s id u, jobKeys (update_job s id u) = jobKeys s) ∧
    (∀ s id fn, lookupJob (create_job s id fn) id = some
      { job_id := id, filename := fn, status := .queued, stage := .upload_saved,
        progress := 0, message := some "Upload saved, starting processing...",
        error := none, result := none }) ∧
    (∀ s id, lookupJob s id = none → get_job_status s id = .error 404) ∧
    (∀ s id j, lookupJob s id = some j → get_job_status s id = .ok
      { job_id := j.job_id, filename := j.filename, status := j.status,
        stage := j.stage, progress := j.progress, message := j.message,
        error := j.error, result := j.result }) := by
  refine ⟨?_, ?_, ?_, ?_, ?_⟩
  · intro s id u h
    unfold update_job
    simp [h]
  · intro s id u
    unfold update_job
    by_cases h : (lookupJob s id).isSome
    · simp [h, keys_map_update]
    · simp [h]
  · intro s id fn
    simp [create_job, lookupJob]
  · intro s id h
    unfold get_job_status
    rw [h]
  · intro s id j h
    unfold get_job_status
    rw [h]

/-- Witness for C10 at concrete inputs. -/
theorem job_store_contract_witness :
    update_job [] "a" {} = ([] : JobStore) ∧
    jobKeys (update_job [] "a" {}) = jobKeys ([] : JobStore) ∧
    lookupJob (create_job [] "a" "f.glb") "a" = some
      { job_id := "a", filename := "f.glb", status := .queued, stage := .upload_saved,
        progress := 0, message := some "Upload saved, starting processing...",
        error := none, result := none } ∧
    get_job_status [] "a" = .error 404 :=
  ⟨job_store_contract.1 [] "a" {} rfl,
   job_store_contract.2.1 [] "a" {},
   job_store_contract.2.2.1 [] "a" "f.glb",
   job_store_contract.2.2.2.1 [] "a" rfl⟩

/-- C3: the empty request path (service root) resolves to the first of
`service.json`, `SceneServer/service.json`, `SceneServer/3dSceneLayer.json`,
`3dSceneLayer.json` that exists at the tree root, in that order; in
particular a tree containing only a root-level `3dSceneLayer.json` resolves
the root path to that file. -/
theorem i3s_root_resolution_order (t : FsTree) :
    (resolveMain t "").resolved = rootCandidates.find? (fun c => sExists t c) ∧
    (resolveWithGz [["3dSceneLayer.json"]] "").resolved = some "3dSceneLayer.json" := by
  constructor
  · simp [resolveMain, show stripSlashes "" = "" from rfl, existsLoop_resolved]
  · decide

/-- C4: for a request path of the form `layers/<digits>/<rest>` (at least two
slashes), the resolver's candidate list also contains the alternate path
`<rest>` with the `layers/<id>/` piece stripped, both bare and under a
`SceneServer/` prefix; concretely, in a tree where `layers/0/nodes/5` is
absent but `nodes/5` exists at the root, requesting `layers/0/nodes/5`
resolves to `nodes/5`. -/
theorem i3s_alt_path_strip (p : String)
    (h1 : strStartsWith p "layers/" = true)
    (h2 : 3 ≤ (splitSlash p).length)
    (h3 : isDigits ((splitSlash p).getD 1 "") = true) :
    altPath p = some (joinSep "/" ((splitSlash p).drop 2)) ∧
    joinSep "/" ((splitSlash p).drop 2) ∈ directCandidates p ∧
    "SceneServer/" ++ joinSep "/" ((splitSlash p).drop 2) ∈ directCandidates p ∧
    (resolveWithGz [["nodes", "5"]] "layers/0/nodes/5").resolved = some "nodes/5" := by
  have ha : altPath p = some (joinSep "/" ((splitSlash p).drop 2)) := by
    have h3' : isDigits ((splitSlash p)[1]?.getD "") = true := by
      simpa [List.getD] using h3
    simp [altPath, h1, h2, h3']
  refine ⟨ha, ?_, ?_, by decide⟩
  · simp [directCandidates, ha]
  · simp [directCandidates, ha]

/-- Witness for C4 at the concrete request `layers/0/nodes/5`. -/
theorem i3s_alt_path_strip_witness :
    altPath "layers/0/nodes/5"
      = some (joinSep "/" ((splitSlash "layers/0/nodes/5").drop 2)) ∧
    joinSep "/" ((splitSlash "layers/0/nodes/5").drop 2)
      ∈ directCandidates "layers/0/nodes/5" ∧
    "SceneServer/" ++ joinSep "/" ((splitSlash "layers/0/nodes/5").drop 2)
      ∈ directCandidates "layers/0/nodes/5" ∧
    (resolveWithGz [["nodes", "5"]] "layers/0/nodes/5").resolved = some "nodes/5" :=
  i3s_alt_path_strip "layers/0/nodes/5" (by decide) (by decide) (by decide)

/-- C5: when no candidate matched, the resolver retries every previously
attempted path with `.gz` appended and resolves to the first match; in a tree
where `X.json` is absent but `X.json.gz` exists, requesting `X` or `X.json`
serves the decompressed bytes as `application/json`. -/
theorem i3s_gzip_fallback :
    (∀ t path, (resolveMain t path).resolved = none →
      (resolveWithGz t path).resolved =
        ((resolveMain t path).attempted.find? (fun a => sExists t (a ++ ".gz"))).map
          (fun a => a ++ ".gz")) ∧
    serve_i3s [["X.json.gz"]] "f" "X" = .ok "X.json.gz" "application/json" true ∧
    serve_i3s [["X.json.gz"]] "f" "X.json" = .ok "X.json.gz" "application/json" true := by
  refine ⟨?_, by decide, by decide⟩
  intro t path h
  unfold resolveWithGz
  rcases hrm : resolveMain t path with ⟨res, att⟩
  rw [hrm] at h
  have h' : res = none := h
  subst h' 
  cases hf : att.find? (fun a => sExists t (a ++ ".gz")) with
  | none => simp [hf]
  | some a => simp [hf]

/-- Witness for C5's universally quantified part at a concrete tree. -/
theorem i3s_gzip_fallback_witness :
    (resolveMain [["X.json.gz"]] "X").resolved = none ∧
    (resolveWithGz [["X.json.gz"]] "X").resolved =
      ((resolveMain [["X.json.gz"]] "X").attempted.find?
        (fun a => sExists [["X.json.gz"]] (a ++ ".gz"))).map (fun a => a ++ ".gz") :=
  ⟨by decide, i3s_gzip_fallback.1 [["X.json.gz"]] "X" (by decide)⟩

/-- C6: when resolution (including the gzip fallback) exhausts all
candidates, the endpoint returns a 404 response — never a 500 — whose body
carries the error text, the requested path and the ordered list of attempted
candidate paths. -/
theorem i3s_exhausted_404 (t : FsTree) (folder path : String)
    (h : (resolveWithGz t path).resolved = none) :
    serve_i3s t folder path =
      .notFound "File not found" ("/i3s/" ++ folder ++ "/" ++ stripSlashes path)
        ((resolveWithGz t path).attempted.map (fun a => folder ++ "/" ++ a)) ∧
    (serve_i3s t folder path).status = 404 := by
  have hs : serve_i3s t folder path =
      .notFound "File not found" ("/i3s/" ++ folder ++ "/" ++ stripSlashes path)
        ((resolveWithGz t path).attempted.map (fun a => folder ++ "/" ++ a)) := by
    unfold serve_i3s
    rcases hr : resolveWithGz t path with ⟨res, att⟩
    rw [hr] at h
    have h' : res = none := h
    subst h' 
    simp
  exact ⟨hs, by rw [hs]; rfl⟩

/-- Witness for C6 at a concrete empty tree and unresolvable path. -/
theorem i3s_exhausted_404_witness :
    serve_i3s [] "f" "nope" =
      .notFound "File not found" ("/i3s/" ++ "f" ++ "/" ++ stripSlashes "nope")
        ((resolveWithGz [] "nope").attempted.map (fun a => "f" ++ "/" ++ a)) ∧
    (serve_i3s [] "f" "nope").status = 404 :=
  i3s_exhausted_404 [] "f" "nope" (by decide)

/-- The save loop aborts with the 400 error and deletes the partial file as
soon as the running byte count would exceed the limit. -/
theorem saveLoop_overflow (chunks : List Nat) (w : Nat) (hw : w ≤ MAX_FILE_SIZE)
    (hnz : ∀ c ∈ chunks, c ≠ 0) (hsum : MAX_FILE_SIZE < w + chunks.sum) :
    saveLoop chunks w =
      (.error { status := 400, detail := "File too large. Maximum size: 5GB" }, none) := by
  induction chunks generalizing w with
  | nil =>
    exfalso
    simp [List.sum_nil] at hsum
    omega
  | cons c rest ih =>
    have hc : c ≠ 0 := hnz c (by simp)
    by_cases hbig : w + c > MAX_FILE_SIZE
    · simp [saveLoop, hc, hbig]
    · have hle : w + c ≤ MAX_FILE_SIZE := by omega
      simp only [saveLoop, if_neg hc, if_neg hbig]
      exact ih (w + c) hle (fun x hx => hnz x (List.mem_cons_of_mem _ hx))
        (by simp [List.sum_cons] at hsum ⊢; omega)

/-- Every on-disk byte count the save loop ever produces stays within the
limit (the overflow check runs before the chunk is written). -/
theorem diskTrace_le (chunks : List Nat) (w : Nat) :
    ∀ b ∈ diskTrace chunks w, b ≤ MAX_FILE_SIZE := by
  induction chunks generalizing w with
  | nil => simp [diskTrace]
  | cons c rest ih =>
    by_cases hc : c = 0
    · simp [diskTrace, hc]
    · by_cases hbig : w + c > MAX_FILE_SIZE
      · simp [diskTrace, hc, hbig]
      · intro b hb
        simp only [diskTrace, if_neg hc, if_neg hbig, List.mem_cons] at hb
        rcases hb with rfl | hb
        · omega
        · exact ih (w + c) b hb

/-- C7: streaming an upload whose chunks sum past the 5 GB limit aborts with
the 400 "File too large" error and leaves no file on disk, and the on-disk
byte count never exceeds the limit at any point of the stream. -/
theorem upload_size_limit_enforced (chunks : List Nat)
    (hnz : ∀ c ∈ chunks, c ≠ 0) (hsum : MAX_FILE_SIZE < chunks.sum) :
    upload_model_stream none chunks =
      (.error { status := 400, detail := "File too large. Maximum size: 5GB" }, none) ∧
    ∀ b ∈ diskTrace chunks 0, b ≤ MAX_FILE_SIZE := by
  refine ⟨?_, diskTrace_le chunks 0⟩
  show saveLoop chunks 0 = _
  exact saveLoop_overflow chunks 0 (by omega) hnz (by simpa using hsum)

/-- Witness for C7: a single 5 GB + 1 byte chunk. -/
theorem upload_size_limit_enforced_witness :
    upload_model_stream none [5368709121] =
      (.error { status := 400, detail := "File too large. Maximum size: 5GB" }, none) ∧
    ∀ b ∈ diskTrace [5368709121] 0, b ≤ MAX_FILE_SIZE :=
  upload_size_limit_enforced [5368709121] (by decide) (by decide)

/-- C8: `handle_slpk` entry-point detection returns index `i` exactly when
strategy `i` succeeds and every earlier strategy fails — the six strategies
(root `3dSceneLayer.json`; a `SceneServer` entry anywhere; a `service.json`
whose parent holds `layers/`; a `layers/0/` directory with scene-layer
metadata; any `3dSceneLayer.json`; any `layer.json`) are tried in this exact
order, stopping at the first success. -/
theorem slpk_detection_order (t : FsTree) (i : Nat) :
    detectEntryPoint t = some i ↔
      (i < 6 ∧ strategyAt i t = true ∧ ∀ j, j < i → strategyAt j t = false) := by
  constructor
  · intro h
    unfold detectEntryPoint at h
    split_ifs at h with h0 h1 h2 h3 h4 h5
    · injection h with hji; subst hji
      exact ⟨by omega, h0, fun j hj => by omega⟩
    · injection h with hji; subst hji
      refine ⟨by omega, h1, fun j hj => ?_⟩
      interval_cases j
      · simpa using h0
    · injection h with hji; subst hji
      refine ⟨by omega, h2, fun j hj => ?_⟩
      interval_cases j
      · simpa using h0
      · simpa using h1
    · injection h with hji; subst hji
      refine ⟨by omega, h3, fun j hj => ?_⟩
      interval_cases j
      · simpa using h0
      · simpa using h1
      · simpa using h2
    · injection h with hji; subst hji
      refine ⟨by omega, h4, fun j hj => ?_⟩
      interval_cases j
      · simpa using h0
      · simpa using h1
      · simpa using h2
      · simpa using h3
    · injection h with hji; subst hji
      refine ⟨by omega, h5, fun j hj => ?_⟩
      interval_cases j
      · simpa using h0
      · simpa using h1
      · simpa using h2
      · simpa using h3
      · simpa using h4
  · rintro ⟨h6, hi, hj⟩
    unfold detectEntryPoint
    split_ifs with h0 h1 h2 h3 h4 h5
    · have hik : i = 0 := by
        by_contra hne
        have hx := hj 0 (by omega)
        simp [strategyAt, h0] at hx
      subst hik; rfl
    · have hik : i = 1 := by
        by_contra hne
        rcases Nat.lt_or_ge i 1 with hlt | hge
        · interval_cases i
          simp_all [strategyAt]
        · have hx := hj 1 (by omega)
          simp [strategyAt, h1] at hx
      subst hik; rfl
    · have hik : i = 2 := by
        by_contra hne
        rcases Nat.lt_or_ge i 2 with hlt | hge
        · interval_cases i <;> simp_all [strategyAt]
        · have hx := hj 2 (by omega)
          simp [strategyAt, h2] at hx
      subst hik; rfl
    · have hik : i = 3 := by
        by_contra hne
        rcases Nat.lt_or_ge i 3 with hlt | hge
        · interval_cases i <;> simp_all [strategyAt]
        · have hx := hj 3 (by omega)
          simp [strategyAt, h3] at hx
      subst hik; rfl
    · have hik : i = 4 := by
        by_contra hne
        rcases Nat.lt_or_ge i 4 with hlt | hge
        · interval_cases i <;> simp_all [strategyAt]
        · have hx := hj 4 (by omega)
          simp [strategyAt, h4] at hx
      subst hik; rfl
    · have hik : i = 5 := by
        by_contra hne
        rcases Nat.lt_or_ge i 5 with hlt | hge
        · interval_cases i <;> simp_all [strategyAt]
        · have hx := hj 5 (by omega)
          simp [strategyAt, h5] at hx
      subst hik; rfl
    · exfalso
      interval_cases i <;> simp_all [strategyAt]

/-- The diagnostic message always opens with the headline, the statistics
sentence carrying the three counts, and the top-level listing. -/
theorem unrecognizedMessage_head (t : FsTree) :
    ∃ rest, unrecognizedMessage t =
      "SLPK extracted but no I3S entry point found." ++ " " ++
      ("Statistics: " ++ toString (dirCount t) ++ " dirs, " ++
        toString (fileCount t) ++ " files, " ++ toString (jsonCount t) ++ " JSONs.") ++ " " ++
      ("Top-level: " ++ joinSep ", " (topLevel t) ++ ".") ++ rest := by
  unfold unrecognizedMessage unrecognizedParts
  split_ifs <;>
    (try simp only [List.cons_append, List.nil_append]) <;>
    exact joinSep_head3 _ _ _ _

/-- C9: an SLPK that extracts but matches no detection strategy yields an
`slpk_extracted_unrecognized` result (no exception), the extracted tree is
kept on disk, the message carries the directory/file/JSON counts and the
top-level listing, and the orchestration layer then marks the job `error`
with a `success: False` payload. -/
theorem slpk_unrecognized_diagnostic (s0 : JobStore) (jid dirName orig ext : String)
    (ts osz : Nat) (sz : FsPath → Nat) (raw : FsTree) (j0 : Job)
    (hdet : detectEntryPoint (decompressTree raw) = none)
    (hjob : lookupJob s0 jid = some j0) :
    (handle_slpk s0 jid dirName ts orig osz sz (.ok raw)).result.processing_type
      = "slpk_extracted_unrecognized" ∧
    (handle_slpk s0 jid dirName ts orig osz sz (.ok raw)).extractDirRetained = true ∧
    (handle_slpk s0 jid dirName ts orig osz sz (.ok raw)).result.url
      = "/i3s/" ++ dirName ∧
    (∃ rest, (handle_slpk s0 jid dirName ts orig osz sz (.ok raw)).result.message =
      "SLPK extracted but no I3S entry point found." ++ " " ++
      ("Statistics: " ++ toString (dirCount (decompressTree raw)) ++ " dirs, " ++
        toString (fileCount (decompressTree raw)) ++ " files, " ++
        toString (jsonCount (decompressTree raw)) ++ " JSONs.") ++ " " ++
      ("Top-level: " ++ joinSep ", " (topLevel (decompressTree raw)) ++ ".") ++ rest) ∧
    (∃ j, lookupJob (process_model_background
        (handle_slpk s0 jid dirName ts orig osz sz (.ok raw)).store jid ext
        (.ok (handle_slpk s0 jid dirName ts orig osz sz (.ok raw)).result)) jid
          = some j ∧
      j.status = .error ∧
      ∃ rp, j.result = some rp ∧ rp.success = false ∧
        rp.processing_type = "slpk_extracted_unrecognized") := by
  have hh : handle_slpk s0 jid dirName ts orig osz sz (.ok raw) =
      { result := { filename := orig, url := "/i3s/" ++ dirName,
                    size := treeSize sz (decompressTree raw),
                    processing_type := "slpk_extracted_unrecognized",
                    message := unrecognizedMessage (decompressTree raw) },
        store := update_job (update_job (update_job s0 jid
              { progress := some 30, message := some "Extracting SLPK archive..." }) jid
              { progress := some 60, message := some "Locating I3S layer entry point..." }) jid
              { progress := some 50, message := some "No I3S entrypoint found" },
        extractDirRetained := true } := by
    simp only [handle_slpk, hdet]
  rw [hh]
  refine ⟨rfl, rfl, rfl, unrecognizedMessage_head _, ?_⟩
  have l1 := lookup_update_some s0 jid
    { progress := some 30, message := some "Extracting SLPK archive..." } j0 hjob
  have l2 := lookup_update_some _ jid
    { progress := some 60, message := some "Locating I3S layer entry point..." } _ l1
  have l3 := lookup_update_some _ jid
    { progress := some 50, message := some "No I3S entrypoint found" } _ l2
  have l4 := lookup_update_some _ jid
    { status := some .processing, progress := some 0,
      message := some "Starting processing..." } _ l3
  have l5 := lookup_update_some _ jid
    { status := some .error, stage := some .done, progress := some 100,
      error := some (unrecognizedMessage (decompressTree raw)),
      message := some "SLPK extracted but no I3S entrypoint found",
      result := some { success := false, filename := orig, url := "/i3s/" ++ dirName,
                       size := treeSize sz (decompressTree raw), original_format := ext,
                       processing_type := "slpk_extracted_unrecognized",
                       message := unrecognizedMessage (decompressTree raw) } } _ l4
  exact ⟨_, l5, rfl, _, rfl, rfl, rfl⟩

/-- Witness for C9: a one-file archive (`readme.txt`) with no I3S markers. -/
theorem slpk_unrecognized_diagnostic_witness :
    (handle_slpk (create_job [] "j" "pkg.slpk") "j" "slpk_7_pkg" 7 "pkg.slpk" 50
        (fun _ => 1) (.ok [["readme.txt"]])).result.processing_type
      = "slpk_extracted_unrecognized" ∧
    (handle_slpk (create_job [] "j" "pkg.slpk") "j" "slpk_7_pkg" 7 "pkg.slpk" 50
        (fun _ => 1) (.ok [["readme.txt"]])).extractDirRetained = true ∧
    (handle_slpk (create_job [] "j" "pkg.slpk") "j" "slpk_7_pkg" 7 "pkg.slpk" 50
        (fun _ => 1) (.ok [["readme.txt"]])).result.url = "/i3s/" ++ "slpk_7_pkg" ∧
    (∃ rest, (handle_slpk (create_job [] "j" "pkg.slpk") "j" "slpk_7_pkg" 7 "pkg.slpk" 50
        (fun _ => 1) (.ok [["readme.txt"]])).result.message =
      "SLPK extracted but no I3S entry point found." ++ " " ++
      ("Statistics: " ++ toString (dirCount (decompressTree [["readme.txt"]])) ++ " dirs, " ++
        toString (fileCount (decompressTree [["readme.txt"]])) ++ " files, " ++
        toString (jsonCount (decompressTree [["readme.txt"]])) ++ " JSONs.") ++ " " ++
      ("Top-level: " ++ joinSep ", " (topLevel (decompressTree [["readme.txt"]])) ++ ".") ++ rest) ∧
    (∃ j, lookupJob (process_model_background
        (handle_slpk (create_job [] "j" "pkg.slpk") "j" "slpk_7_pkg" 7 "pkg.slpk" 50
          (fun _ => 1) (.ok [["readme.txt"]])).store "j" ".slpk"
        (.ok (handle_slpk (create_job [] "j" "pkg.slpk") "j" "slpk_7_pkg" 7 "pkg.slpk" 50
          (fun _ => 1) (.ok [["readme.txt"]])).result)) "j" = some j ∧
      j.status = .error ∧
      ∃ rp, j.result = some rp ∧ rp.success = false ∧
        rp.processing_type = "slpk_extracted_unrecognized") :=
  slpk_unrecognized_diagnostic (create_job [] "j" "pkg.slpk") "j" "slpk_7_pkg" "pkg.slpk"
    ".slpk" 7 50 (fun _ => 1) [["readme.txt"]]
    { job_id := "j", filename := "pkg.slpk", status := .queued, stage := .upload_saved,
      progress := 0, message := some "Upload saved, starting processing...",
      error := none, result := none }
    (by decide) rfl
